import Mathlib

/-!
Verification of the meeting-transcription coordinator core
(`heroku-backend/app` session ingestion, summary scheduling, and the
per-session audio managers) against its natural-language specification.

Timestamps are modelled as seconds (`Nat`); Python dictionaries holding
session data are modelled as structures.  Transcript entries are stored by
all three ingestion paths in the same per-session list; the WebSocket and
HTTP paths store the text under the dict key `transcript` while the
provider-callback path stores it under `text`.  Both keys appear here as
`Option String` fields (as are the `speaker`/`sequence` keys, absent on
some paths), and the word-count recomputations that subscript
`t['transcript']` return `Option Nat`, with `none` modelling the KeyError
they raise on entries lacking that key.
-/

namespace Astro

/-- Number of maximal nonempty runs of non-whitespace characters; the
`inWord` flag records whether the previous character was inside a word. -/
def countWords : Bool → List Char → Nat
  | _, [] => 0
  | inWord, c :: rest =>
    if c.isWhitespace then countWords false rest
    else (if inWord then 0 else 1) + countWords true rest

/-- Word count of one line, as computed by Python `len(s.split())`:
whitespace-separated chunks, empty chunks discarded. -/
def pyWordCount (s : String) : Nat := countWords false s.data

/-- One entry of `session_data['transcripts']`.  The WebSocket and HTTP
paths store the line's text under the dict key `transcript` and the
provider-callback path under `text`; each field is `none` when the path
did not write that key.  Likewise `speaker` and `sequence` are `none` for
provider-callback entries, which store neither key. -/
structure TranscriptEntry where
  transcript : Option String
  text : Option String
  speaker : Option String
  confidence : Rat
  is_final : Bool
  timestamp : Nat
  sequence : Option Nat
  deriving Repr, DecidableEq

/-- The text an entry actually carries, under whichever dict key its
ingestion path stored it — the spec-level notion of the line's text. -/
def TranscriptEntry.lineText (t : TranscriptEntry) : String :=
  t.transcript.getD (t.text.getD "")

/-- One action item of a meeting summary. -/
structure ActionItem where
  task : String
  assignee : String
  deadline : String
  deriving Repr, DecidableEq

/-- The `meeting_summary` dict of a session. -/
structure MeetingSummary where
  summary : String
  actionItems : List ActionItem
  questions : List String
  nextSteps : List String
  lastUpdated : Option Nat
  finalTranscriptCount : Nat
  deriving Repr, DecidableEq

/-- The empty meeting summary installed by `handle_transcript_line` when a
session has no `meeting_summary` key yet (socket_service.py lines 154-162). -/
def emptyMeetingSummary : MeetingSummary :=
  { summary := ""
    actionItems := []
    questions := []
    nextSteps := []
    lastUpdated := none
    finalTranscriptCount := 0 }

/-- The session dict (`sessions[session_id]`), restricted to the fields the
core logic reads and writes. -/
structure SessionData where
  status : String
  created_at : Nat
  started_at : Option Nat
  ended_at : Option Nat
  transcripts : List TranscriptEntry
  transcript_count : Nat
  word_count : Nat
  duration : Option Nat
  meeting_summary : Option MeetingSummary
  oauth_token : Option String
  deriving Repr, DecidableEq

/-- A fresh session as built by `create_session` (sessions.py lines 56-69
and the WebSocket `create_session` handler). -/
def create_session (now : Nat) : SessionData :=
  { status := "created"
    created_at := now
    started_at := none
    ended_at := none
    transcripts := []
    transcript_count := 0
    word_count := 0
    duration := none
    meeting_summary := none
    oauth_token := none }

/-- Spec-level sum of per-line word counts over the final entries, using
each line's actual text (whichever key carries it). -/
def finalWordSum (ts : List TranscriptEntry) : Nat :=
  ((ts.filter (fun t => t.is_final)).map (fun t => pyWordCount t.lineText)).sum

/-- Spec-level sum of per-line word counts over all entries. -/
def allWordSum (ts : List TranscriptEntry) : Nat :=
  (ts.map (fun t => pyWordCount t.lineText)).sum

/-- Summation of `len(t['transcript'].split())` over a list of entries:
`none` models the KeyError raised as soon as an entry lacks the
`transcript` key (as every provider-callback entry does). -/
def wordSumOver : List TranscriptEntry → Option Nat
  | [] => some 0
  | t :: ts =>
    match t.transcript, wordSumOver ts with
    | some s, some n => some (pyWordCount s + n)
    | _, _ => none

/-- The recomputation
`sum(len(t['transcript'].split()) for t in ... if t.get('is_final', False))`
of `handle_transcript_line` (socket_service.py line 150): `none` when some
FINAL entry lacks the `transcript` key — the KeyError is caught by the
handler's outer `except` (line 189), aborting it after the append. -/
def finalWordSum? (ts : List TranscriptEntry) : Option Nat :=
  wordSumOver (ts.filter (fun t => t.is_final))

/-- The recomputation
`sum(len(t['transcript'].split()) for t in session_data['transcripts'])`
of the HTTP `add_transcript` endpoint (sessions.py line 268): `none` when
ANY entry lacks the `transcript` key — the endpoint's `except` (line 286)
then returns a 500 after the append, leaving `word_count` stale. -/
def allWordSum? (ts : List TranscriptEntry) : Option Nat :=
  wordSumOver ts

/-- `_get_meeting_duration_minutes` (socket_service.py lines 477-493):
0 when the session has not started; otherwise whole minutes between
`started_at` and `ended_at` (or the current time when not ended). -/
def get_meeting_duration_minutes (s : SessionData) (now : Nat) : Nat :=
  match s.started_at with
  | none => 0
  | some st => ((s.ended_at.getD now) - st) / 60

/-- `_should_update_summary` (socket_service.py lines 452-475): no trigger
below 5 final lines; otherwise trigger when the final count is a multiple
of the cadence chosen from the meeting duration (≤30 min ↦ 5,
≤60 min ↦ 10, else 15). -/
def should_update_summary (s : SessionData) (now : Nat) (final_count : Nat) : Bool :=
  if final_count < 5 then
    false
  else
    let d := get_meeting_duration_minutes s now
    let frequency := if d ≤ 30 then 5 else if d ≤ 60 then 10 else 15
    final_count % frequency == 0

namespace Socket

/-- The WebSocket `transcript_line` handler (socket_service.py lines
106-191), restricted to one session's state.  Returns the updated session
and whether a summary generation was triggered.  An empty transcript is
rejected (`if not session_id or not transcript`) with no state change.
On a final line the word count is recomputed over final entries via
`t['transcript']`; when that raises KeyError (a final provider-callback
entry is stored under `text`), the outer `except` at line 189 catches it
and the handler aborts AFTER the append — no word-count update, no summary
initialisation, no trigger evaluation.  Otherwise the meeting summary dict
is initialised if absent, its `finalTranscriptCount` is set, and the
trigger is evaluated. -/
def handle_transcript_line (now : Nat) (s : SessionData) (transcript : String)
    (speaker : String) (confidence : Rat) (is_final : Bool) : SessionData × Bool :=
  if transcript = "" then (s, false)
  else
    let entry : TranscriptEntry :=
      { transcript := some transcript
        text := none
        speaker := some speaker
        confidence := confidence
        is_final := is_final
        timestamp := now
        sequence := some s.transcripts.length }
    let ts := s.transcripts ++ [entry]
    let s1 := { s with transcripts := ts, transcript_count := ts.length }
    if is_final then
      match finalWordSum? ts with
      | none => (s1, false)
      | some wc =>
        let s2 := { s1 with word_count := wc }
        let summ := s2.meeting_summary.getD emptyMeetingSummary
        let final_count := (ts.filter (fun t => t.is_final)).length
        let s3 := { s2 with
          meeting_summary := some { summ with finalTranscriptCount := final_count } }
        (s3, should_update_summary s3 now final_count)
    else (s1, false)

end Socket

namespace Sessions

/-- The HTTP `POST /<id>/transcript` endpoint `add_transcript`
(sessions.py lines 232-288): appends an always-final entry with
`sequence = len(transcripts)` and then sets `word_count` to the sum over
ALL entries via `t['transcript']` (final and interim alike, line 268);
when any stored entry lacks that key (a provider-callback entry), the
recomputation raises KeyError and the endpoint aborts after the append,
leaving `word_count` unchanged. -/
def add_transcript (now : Nat) (s : SessionData) (text : String)
    (speaker : String) (confidence : Rat) : SessionData :=
  let entry : TranscriptEntry :=
    { transcript := some text
      text := none
      speaker := some speaker
      confidence := confidence
      is_final := true
      timestamp := now
      sequence := some s.transcripts.length }
  let ts := s.transcripts ++ [entry]
  let s1 := { s with transcripts := ts, transcript_count := ts.length }
  match allWordSum? ts with
  | none => s1
  | some wc => { s1 with word_count := wc }

/-- The provider-callback path `add_transcript_to_session`
(sessions.py lines 359-418): appends an entry whose text sits under the
`text` key, carrying no speaker and no sequence key, and on a final line
increments `transcript_count` by one and `word_count` by the line's word
count (read from its own local `transcript_entry['text']` — no KeyError
here). -/
def add_transcript_to_session (now : Nat) (s : SessionData) (text : String)
    (confidence : Rat) (is_final : Bool) : SessionData :=
  let entry : TranscriptEntry :=
    { transcript := none
      text := some text
      speaker := none
      confidence := confidence
      is_final := is_final
      timestamp := now
      sequence := none }
  let s1 := { s with transcripts := s.transcripts ++ [entry] }
  if is_final then
    { s1 with
      transcript_count := s1.transcript_count + 1
      word_count := s1.word_count + pyWordCount text }
  else s1

/-- Session start (sessions.py lines 100-101 and the WebSocket
`start_session` handler lines 329-330): status `active`, `started_at`
stamped. -/
def start_session (now : Nat) (s : SessionData) : SessionData :=
  { s with status := "active", started_at := some now }

/-- The HTTP `POST /<id>/end` endpoint `end_session` (sessions.py lines
156-158): status is set to the string `ended`, `ended_at` stamped, and no
duration is stored. -/
def end_session (now : Nat) (s : SessionData) : SessionData :=
  { s with status := "ended", ended_at := some now }

end Sessions

namespace Socket

/-- The WebSocket `end_session` handler (socket_service.py lines 380-400):
status `completed`, `ended_at` stamped, and when `started_at` is set the
final duration in seconds is computed and stored. -/
def handle_end_session (now : Nat) (s : SessionData) : SessionData :=
  let s1 := { s with status := "completed", ended_at := some now }
  match s.started_at with
  | some st => { s1 with duration := some (now - st) }
  | none => s1

/-- Scheduler state for one session: the session data plus the number of
started-but-unfinished background summary threads. -/
structure SchedulerState where
  session : SessionData
  running : Nat
  deriving Repr, DecidableEq

/-- `_generate_meeting_summary_async` (socket_service.py lines 495-558):
defines the `generate_summary` closure, then unconditionally creates and
starts a daemon thread running it — there is no check whether a previous
summarization for the session is still running.  Modelled as incrementing
the count of running summary threads. -/
def generate_meeting_summary_async (st : SchedulerState) : SchedulerState :=
  { st with running := st.running + 1 }

/-- The body of the `generate_summary` closure inside
`_generate_meeting_summary_async` (socket_service.py lines 497-552): one
run of the background thread.  `api_result` models the return value of
`models_service.generate_meeting_summary` (`none` = all retries failed or
an exception).  Returns the updated session together with the names of the
WebSocket events emitted: on success the stored summary is replaced by the
result, `lastUpdated` is stamped, and `meeting_summary_update` is emitted;
when the session has no final transcripts, no OAuth token, or the call
failed, the stored summary is left unchanged and no event is emitted
(failures are only logged). -/
def generate_summary (now : Nat) (s : SessionData)
    (api_result : Option MeetingSummary) : SessionData × List String :=
  if (s.transcripts.filter (fun t => t.is_final)).isEmpty then (s, [])
  else
    match s.oauth_token with
    | none => (s, [])
    | some _ =>
      match api_result with
      | some r =>
          ({ s with meeting_summary := some { r with lastUpdated := some now } },
           ["meeting_summary_update"])
      | none => (s, [])

end Socket

namespace SalesforceModelsService

/-- `self.max_retries` (salesforce_models_service.py line 34). -/
def max_retries : Nat := 3

/-- `self.retry_delay_seconds` (salesforce_models_service.py line 35). -/
def retry_delay_seconds : Nat := 10

/-- The retry loop of `generate_meeting_summary` (salesforce_models_service.py
lines 149-221): `fuel` attempts remain, `i` is the current attempt index;
`attempt i` models the outcome of the i-th API call (`none` covers a missing
token, a request exception, or an empty generation — all of which sleep
`retry_delay_seconds` and continue, or return `None` on the last attempt). -/
def retryLoop (attempt : Nat → Option MeetingSummary) :
    Nat → Nat → Option MeetingSummary
  | 0, _ => none
  | fuel + 1, i =>
    match attempt i with
    | some r => some r
    | none => retryLoop attempt fuel (i + 1)

/-- `generate_meeting_summary`'s overall result: the first successful
attempt among `max_retries` tries, else `None`. -/
def generate_meeting_summary_result (attempt : Nat → Option MeetingSummary) :
    Option MeetingSummary :=
  retryLoop attempt max_retries 0

/-- One message of the chat-generations payload. -/
structure ChatMessage where
  role : String
  content : String
  deriving Repr, DecidableEq

/-- The system prompt (salesforce_models_service.py lines 254-290),
abbreviated to its opening sentence; no claim depends on its content. -/
def system_prompt : String :=
  "You are an AI meeting assistant that maintains real-time meeting summaries during ongoing business meetings."

/-- `_format_summary_for_context` (salesforce_models_service.py lines
292-316): renders an existing summary dict as text for the assistant
context message. -/
def format_summary_for_context (m : MeetingSummary) : String :=
  let base := "Current Meeting Summary:\n\nSummary: " ++ m.summary ++ "\n\n"
  let base := if m.actionItems.isEmpty then base
    else base ++ "Action Items:\n" ++
      String.join (m.actionItems.map (fun it =>
        "- " ++ it.task ++ " (Assignee: " ++ it.assignee ++
          ", Deadline: " ++ it.deadline ++ ")\n")) ++ "\n"
  let base := if m.questions.isEmpty then base
    else base ++ "Questions & Concerns:\n" ++
      String.join (m.questions.map (fun q => "- " ++ q ++ "\n")) ++ "\n"
  if m.nextSteps.isEmpty then base
  else base ++ "Next Steps:\n" ++
    String.join (m.nextSteps.map (fun st => "- " ++ st ++ "\n"))

/-- `"\n".join([f"- {transcript}" for transcript in new_transcripts])`. -/
def joinTranscripts (xs : List String) : String :=
  String.intercalate "\n" (xs.map (fun t => "- " ++ t))

/-- `_build_conversation_messages` (salesforce_models_service.py lines
223-250).  The `conversation_history` parameter is declared but never read
in the body — a fact of the source, reproduced here by the unused
polymorphic argument.  The previous summary, when present, is added as an
assistant message, and the new transcripts are joined into the user
message. -/
def build_conversation_messages (conversation_history : List α)
    (new_transcripts : List String) (previous_summary : Option MeetingSummary) :
    List ChatMessage :=
  let messages : List ChatMessage := [⟨"system", system_prompt⟩]
  let messages := match previous_summary with
    | some ps => messages ++ [⟨"assistant", format_summary_for_context ps⟩]
    | none => messages
  let transcripts_text := joinTranscripts new_transcripts
  let user_message := match previous_summary with
    | some _ =>
      "Please update the meeting summary with these new transcript lines:\n\n"
        ++ transcripts_text
    | none =>
      "Please create a meeting summary from these transcript lines:\n\n"
        ++ transcripts_text
  messages ++ [⟨"user", user_message⟩]

/-- The keys of the session's `meeting_summary` dict in insertion order
(socket_service.py lines 155-162, later re-established by lines 533-534 and
167): this is what Python iterates over when that dict is supplied where a
list of transcript strings is expected. -/
def meetingSummaryDictKeys : List String :=
  ["summary", "actionItems", "questions", "nextSteps", "lastUpdated",
   "finalTranscriptCount"]

/-- The summarization call as made at the call site (socket_service.py
lines 526-529): `generate_meeting_summary(final_transcripts, existing_summary)`
binds the final transcript entries to the unused `conversation_history`
parameter and the existing summary dict to the `new_transcripts` parameter,
leaving `previous_summary` at its default `None`; joining then iterates the
dict's keys. -/
def call_site_messages (final_transcripts : List TranscriptEntry)
    (existing_summary : MeetingSummary) : List ChatMessage :=
  build_conversation_messages final_transcripts meetingSummaryDictKeys none

end SalesforceModelsService

/-- Byte strings produced by base64 decoding. -/
abbrev AudioBytes := List Nat

/-- Connection and queue tables shared by `DeepgramManager`
(src/app/services/deepgram_service.py) and `AssemblyAIManager`
(heroku-backend/app/services/assemblyai_service.py), whose `send_audio`
and `end_session` have identical logic: `connections` maps session ids to
connection info (modelled as membership), `audio_queues` maps session ids
to the queued chunks.  Each queue is created as `queue.Queue()` — with no
`maxsize`. -/
structure AudioManager where
  connections : List String
  audio_queues : List (String × List AudioBytes)
  deriving Repr, DecidableEq

namespace AudioManager

/-- Lookup of `self.audio_queues[session_id]`. -/
def queueOf (m : AudioManager) (sid : String) : Option (List AudioBytes) :=
  (m.audio_queues.find? (fun p => p.1 == sid)).map Prod.snd

/-- `self.audio_queues[session_id].put(audio_bytes)`. -/
def putQueue (qs : List (String × List AudioBytes)) (sid : String)
    (bytes : AudioBytes) : List (String × List AudioBytes) :=
  qs.map (fun p => if p.1 == sid then (p.1, p.2 ++ [bytes]) else p)

/-- The `maxsize` of a queue created as `queue.Queue()`: 0, meaning
unbounded. -/
def queue_maxsize : Nat := 0

/-- `queue.Queue.full()` semantics: a queue with `maxsize <= 0` is never
full. -/
def queueIsFull (q : List AudioBytes) : Bool :=
  0 < queue_maxsize && queue_maxsize ≤ q.length

/-- `send_audio` (deepgram_service.py lines 174-201; assemblyai_service.py
lines 260-287, identical logic): `False` when the session has no
connection entry or no audio queue; otherwise the chunk is base64-decoded
and enqueued; an exception (in particular `binascii.Error` raised by
`b64decode` on input such as "abc" with invalid padding) is caught and
yields `False` with no state change.  `decode` stands for the external
`base64.b64decode`, returning `none` where Python raises. -/
def send_audio (decode : String → Option AudioBytes) (m : AudioManager)
    (sid : String) (audio_data_b64 : String) : Bool × AudioManager :=
  if ¬ (sid ∈ m.connections) then (false, m)
  else
    match m.queueOf sid with
    | none => (false, m)
    | some _ =>
      match decode audio_data_b64 with
      | none => (false, m)
      | some bytes =>
        (true, { m with audio_queues := putQueue m.audio_queues sid bytes })

/-- `end_session` (deepgram_service.py lines 151-172): pops the connection
entry, finishes the provider connection, and deletes the audio queue; a
no-op when the session is unknown. -/
def end_session (m : AudioManager) (sid : String) : AudioManager :=
  if sid ∈ m.connections then
    { connections := m.connections.erase sid
      audio_queues := m.audio_queues.filter (fun p => !(p.1 == sid)) }
  else m

end AudioManager

/-- One transcript-ingestion event, tagged by path: the WebSocket
`transcript_line` handler, the HTTP transcript endpoint, or the provider
callback. -/
inductive IngestOp where
  | ws (now : Nat) (text speaker : String) (confidence : Rat) (is_final : Bool)
  | http (now : Nat) (text speaker : String) (confidence : Rat)
  | provider (now : Nat) (text : String) (confidence : Rat) (is_final : Bool)
  deriving Repr, DecidableEq

/-- Apply one ingestion event to a session. -/
def applyIngest (s : SessionData) : IngestOp → SessionData
  | .ws n t sp c f => (Socket.handle_transcript_line n s t sp c f).1
  | .http n t sp c => Sessions.add_transcript n s t sp c
  | .provider n t c f => Sessions.add_transcript_to_session n s t c f

/-- One session-lifecycle or ingestion operation. -/
inductive SessionOp where
  | ingest (op : IngestOp)
  | start (now : Nat)
  | ws_end (now : Nat)
  | http_end (now : Nat)
  deriving Repr, DecidableEq

/-- Apply one lifecycle/ingestion operation to a session. -/
def applySessionOp (s : SessionData) : SessionOp → SessionData
  | .ingest op => applyIngest s op
  | .start n => Sessions.start_session n s
  | .ws_end n => Socket.handle_end_session n s
  | .http_end n => Sessions.end_session n s

/-- Whether an ingestion path stores a `sequence` key on the entries it
appends: the WebSocket and HTTP paths do, the provider callback does not. -/
def IngestOp.viaSequencedPath : IngestOp → Bool
  | .provider _ _ _ _ => false
  | _ => true

/-- A session fed one final provider-callback entry and then three final
WebSocket lines: each WebSocket append succeeds, but each word-count
recompute hits the provider entry's missing `transcript` key and aborts
the handler, so the session accumulates four final lines with no trigger
ever evaluated. -/
def mixedPathSession : SessionData :=
  (Socket.handle_transcript_line 0
    ((Socket.handle_transcript_line 0
      ((Socket.handle_transcript_line 0
        (Sessions.add_transcript_to_session 0 (create_session 0) "hello" 0 true)
        "a" "u" 0 true).1)
      "b" "u" 0 true).1)
    "c" "u" 0 true).1

/-! ## Supporting lemmas -/

theorem finalWordSum_append (ts : List TranscriptEntry) (e : TranscriptEntry) :
    finalWordSum (ts ++ [e])
      = finalWordSum ts + (if e.is_final then pyWordCount e.lineText else 0) := by
  simp only [finalWordSum, List.filter_append, List.map_append, List.sum_append]
  by_cases h : e.is_final <;> simp [h, List.filter]

/-- When every entry of the list carries the `transcript` key, the
subscripting sum succeeds and computes the spec-level word sum. -/
theorem wordSumOver_eq_some (ts : List TranscriptEntry)
    (h : ∀ t ∈ ts, t.transcript.isSome = true) :
    wordSumOver ts = some ((ts.map (fun t => pyWordCount t.lineText)).sum) := by
  induction ts with
  | nil => rfl
  | cons t rest ih =>
    obtain ⟨v, hv⟩ := Option.isSome_iff_exists.mp (h t (List.mem_cons_self _ _))
    unfold wordSumOver
    rw [hv, ih (fun x hx => h x (List.mem_cons_of_mem _ hx))]
    simp [TranscriptEntry.lineText, hv]

/-- When every FINAL entry carries the `transcript` key, the WebSocket
recomputation succeeds and equals the spec-level final word sum. -/
theorem finalWordSum?_eq_some (ts : List TranscriptEntry)
    (h : ∀ t ∈ ts, t.is_final = true → t.transcript.isSome = true) :
    finalWordSum? ts = some (finalWordSum ts) := by
  unfold finalWordSum? finalWordSum
  exact wordSumOver_eq_some _ (fun t ht =>
    h t (List.mem_of_mem_filter ht) (by simpa using (List.mem_filter.mp ht).2))

/-- When every entry carries the `transcript` key, the HTTP recomputation
succeeds and equals the spec-level all-lines word sum. -/
theorem allWordSum?_eq_some (ts : List TranscriptEntry)
    (h : ∀ t ∈ ts, t.transcript.isSome = true) :
    allWordSum? ts = some (allWordSum ts) :=
  wordSumOver_eq_some ts h

/-- The WebSocket handler always appends exactly its new entry, on the
success path and on the KeyError-abort path alike. -/
theorem handle_transcript_line_transcripts (now : Nat) (s : SessionData)
    (text speaker : String) (conf : Rat) (is_final : Bool) (h : ¬ text = "") :
    (Socket.handle_transcript_line now s text speaker conf is_final).1.transcripts
      = s.transcripts ++
        [{ transcript := some text, text := none, speaker := some speaker,
           confidence := conf, is_final := is_final, timestamp := now,
           sequence := some s.transcripts.length }] := by
  unfold Socket.handle_transcript_line
  rw [if_neg h]
  cases is_final with
  | false => rfl
  | true =>
    rw [if_pos rfl]
    split <;> rfl

/-- The HTTP endpoint always appends exactly its new entry, on the success
path and on the KeyError-abort path alike. -/
theorem add_transcript_transcripts (now : Nat) (s : SessionData)
    (text speaker : String) (conf : Rat) :
    (Sessions.add_transcript now s text speaker conf).transcripts
      = s.transcripts ++
        [{ transcript := some text, text := none, speaker := some speaker,
           confidence := conf, is_final := true, timestamp := now,
           sequence := some s.transcripts.length }] := by
  simp only [Sessions.add_transcript]
  split <;> rfl

/-- Ingestion never changes a session's status field. -/
theorem status_applyIngest (s : SessionData) (op : IngestOp) :
    (applyIngest s op).status = s.status := by
  cases op with
  | ws n t sp c f =>
    simp only [applyIngest, Socket.handle_transcript_line]
    split
    · rfl
    · split
      · split <;> rfl
      · rfl
  | http n t sp c =>
    simp only [applyIngest, Sessions.add_transcript]
    split <;> rfl
  | provider n t c f =>
    simp only [applyIngest, Sessions.add_transcript_to_session]
    split <;> rfl

/-- Ingestion never changes `started_at`. -/
theorem started_at_applyIngest (s : SessionData) (op : IngestOp) :
    (applyIngest s op).started_at = s.started_at := by
  cases op with
  | ws n t sp c f =>
    simp only [applyIngest, Socket.handle_transcript_line]
    split
    · rfl
    · split
      · split <;> rfl
      · rfl
  | http n t sp c =>
    simp only [applyIngest, Sessions.add_transcript]
    split <;> rfl
  | provider n t c f =>
    simp only [applyIngest, Sessions.add_transcript_to_session]
    split <;> rfl

/-! ## Claim theorems -/

/-- Claim C9, counterexample: in a session that is already 90 minutes old
and ingests one final line per minute (duration 90+c minutes at final
count c), the trigger does NOT fire at final counts 5 or 25 — the cadence
there is 15, and 5 and 25 are not multiples of 15 — contradicting the
claimed firing points 5, 15, 25. -/
theorem C9_counterexample :
    should_update_summary
        { create_session 0 with started_at := some 0 } ((90 + 5) * 60) 5 = false ∧
    should_update_summary
        { create_session 0 with started_at := some 0 } ((90 + 25) * 60) 25 = false := by
  decide

/-- Claim C9 (amended): for a session whose elapsed duration stays at 10
minutes, the summary trigger fires exactly at final counts 5, 10, 15 and
20 among counts 1..20; for a session already 90 minutes old ingesting one
final line per minute, the trigger fires exactly at final count 15 among
counts 1..25 (multiples of the cadence 15), not at 5 or 25. -/
theorem C9_trigger_scenarios :
    (((List.range 20).map (fun k => k + 1)).all (fun c =>
        should_update_summary { create_session 0 with started_at := some 0 } 600 c
          == decide (c = 5 ∨ c = 10 ∨ c = 15 ∨ c = 20))) = true ∧
    (((List.range 25).map (fun k => k + 1)).all (fun c =>
        should_update_summary { create_session 0 with started_at := some 0 }
            ((90 + c) * 60) c
          == decide (c = 15))) = true := by
  decide

/-- Claim C4, counterexample: two summary triggers in rapid succession
each start their own background summarization thread — after two calls of
`_generate_meeting_summary_async` on a session with no task running, two
tasks are in flight, not exactly one as claimed. -/
theorem C4_counterexample :
    (Socket.generate_meeting_summary_async
        (Socket.generate_meeting_summary_async ⟨create_session 0, 0⟩)).running = 2 ∧
    (Socket.generate_meeting_summary_async
        (Socket.generate_meeting_summary_async ⟨create_session 0, 0⟩)).running ≠ 1 := by
  decide

/-- Claim C4 (amended): `_generate_meeting_summary_async` contains no
in-flight guard — every trigger unconditionally starts one more background
summarization thread, so a trigger firing while a summarization is already
running adds a second concurrent task rather than being skipped. -/
theorem C4_no_inflight_guard (st : Socket.SchedulerState) :
    (Socket.generate_meeting_summary_async st).running = st.running + 1 := rfl

/-- Claim C10: when base64 decoding of the pushed payload fails, a session
with an attached connection and audio queue gets `False` back from
`send_audio` and both the connection table and the audio queues are left
exactly as they were — nothing is enqueued.  This holds for the identical
`DeepgramManager.send_audio` and `AssemblyAIManager.send_audio` logic. -/
theorem C10_send_audio_error_atomic (decode : String → Option AudioBytes)
    (m : AudioManager) (sid chunk : String)
    (hconn : sid ∈ m.connections) (hq : (m.queueOf sid).isSome = true)
    (hdec : decode chunk = none) :
    AudioManager.send_audio decode m sid chunk = (false, m) := by
  obtain ⟨q, hq'⟩ := Option.isSome_iff_exists.mp hq
  unfold AudioManager.send_audio
  rw [if_neg (by simpa using hconn), hq', hdec]

/-- Claim C10, witness: a concrete manager with one connected session and
an empty queue rejects the undecodable chunk "abc" without any state
change. -/
theorem C10_send_audio_error_atomic_witness :
    AudioManager.send_audio (fun _ => none)
        ⟨["s1"], [("s1", [])]⟩ "s1" "abc"
      = (false, ⟨["s1"], [("s1", [])]⟩) :=
  C10_send_audio_error_atomic (fun _ => none) ⟨["s1"], [("s1", [])]⟩ "s1" "abc"
    (by decide) (by decide) rfl

theorem queueOf_putQueue (cs : List String) (qs : List (String × List AudioBytes))
    (sid : String) (b : AudioBytes) :
    AudioManager.queueOf ⟨cs, AudioManager.putQueue qs sid b⟩ sid
      = (AudioManager.queueOf ⟨cs, qs⟩ sid).map (fun q => q ++ [b]) := by
  induction qs with
  | nil => rfl
  | cons p rest ih =>
    show ((((if p.1 == sid then (p.1, p.2 ++ [b]) else p) ::
          AudioManager.putQueue rest sid b).find? (fun x => x.1 == sid)).map Prod.snd)
        = (((p :: rest).find? (fun x => x.1 == sid)).map Prod.snd).map (fun q => q ++ [b])
    by_cases hp : (p.1 == sid) = true
    · have h2 : (p :: rest).find? (fun x => x.1 == sid) = some p :=
        List.find?_cons_of_pos rest hp
      rw [if_pos hp, List.find?_cons_of_pos _ (by simpa using hp), h2]
      rfl
    · rw [if_neg hp, List.find?_cons_of_neg _ (by simpa using hp),
        List.find?_cons_of_neg _ (by simpa using hp)]
      exact ih

/-- Claim C7, counterexample: a session with a live connection and a
non-full (indeed empty) audio queue still gets `accepted:false` when the
pushed payload cannot be base64-decoded (as Python's `b64decode` raises on
"abc"), so rejection is not equivalent to "no live link or queue full". -/
theorem C7_counterexample :
    ("s1" ∈ (AudioManager.mk ["s1"] [("s1", [])]).connections) ∧
    AudioManager.queueIsFull [] = false ∧
    (AudioManager.send_audio (fun _ => none)
        (AudioManager.mk ["s1"] [("s1", [])]) "s1" "abc").1 = false := by
  decide

/-- Claim C7 (amended): `send_audio` returns `accepted:false` exactly when
the session has no connection entry, no audio queue, or the payload fails
to decode; a rejected push leaves the manager unchanged; a successful push
enqueues the decoded bytes and returns `accepted:true`; and after
`end_session` has torn the link down a push is rejected without touching
any state.  The queue is created unbounded, so fullness never causes
rejection (`queueIsFull` is constantly false). -/
theorem C7_push_audio (decode : String → Option AudioBytes) (m : AudioManager)
    (sid chunk : String) (hnd : m.connections.Nodup) :
    ((AudioManager.send_audio decode m sid chunk).1 = false ↔
      sid ∉ m.connections ∨ m.queueOf sid = none ∨ decode chunk = none) ∧
    ((AudioManager.send_audio decode m sid chunk).1 = false →
      (AudioManager.send_audio decode m sid chunk).2 = m) ∧
    (∀ q b, m.queueOf sid = some q → decode chunk = some b → sid ∈ m.connections →
      (AudioManager.send_audio decode m sid chunk).1 = true ∧
      ((AudioManager.send_audio decode m sid chunk).2).queueOf sid = some (q ++ [b])) ∧
    ((AudioManager.send_audio decode (m.end_session sid) sid chunk).1 = false ∧
      (AudioManager.send_audio decode (m.end_session sid) sid chunk).2
        = m.end_session sid) ∧
    (∀ q : List AudioBytes, AudioManager.queueIsFull q = false) := by
  have hout : sid ∉ (m.end_session sid).connections := by
    unfold AudioManager.end_session
    split
    · intro hmem
      simp only [List.Nodup.mem_erase_iff hnd] at hmem
      exact hmem.1 rfl
    · next hn => exact hn
  refine ⟨?_, ?_, ?_, ?_, ?_⟩
  · unfold AudioManager.send_audio
    by_cases hc : sid ∈ m.connections
    · rw [if_neg (by simpa using hc)]
      cases hq : m.queueOf sid with
      | none => simp [hc, hq]
      | some q =>
        cases hd : decode chunk with
        | none => simp [hc, hq, hd]
        | some b => simp [hc, hq, hd]
    · simp [hc]
  · unfold AudioManager.send_audio
    by_cases hc : sid ∈ m.connections
    · rw [if_neg (by simpa using hc)]
      cases hq : m.queueOf sid with
      | none => simp
      | some q =>
        cases hd : decode chunk with
        | none => simp
        | some b => simp
    · simp [hc]
  · intro q b hq hd hc
    unfold AudioManager.send_audio
    rw [if_neg (by simpa using hc), hq, hd]
    refine ⟨rfl, ?_⟩
    show AudioManager.queueOf ⟨m.connections, AudioManager.putQueue m.audio_queues sid b⟩ sid
      = some (q ++ [b])
    rw [queueOf_putQueue]
    have : AudioManager.queueOf ⟨m.connections, m.audio_queues⟩ sid = some q := hq
    rw [this]
    rfl
  · unfold AudioManager.send_audio
    rw [if_pos (by simpa using hout)]
    exact ⟨rfl, rfl⟩
  · intro q
    simp [AudioManager.queueIsFull, AudioManager.queue_maxsize]

/-- Claim C7, witness: a concrete manager accepts a decodable chunk into
the queue, and rejects the same chunk after `end_session`. -/
theorem C7_push_audio_witness :
    (AudioManager.send_audio (fun _ => some [1])
        (AudioManager.mk ["s1"] [("s1", [])]) "s1" "AQ==").1 = true ∧
    (AudioManager.send_audio (fun _ => some [1])
        ((AudioManager.mk ["s1"] [("s1", [])]).end_session "s1") "s1" "AQ==").1 = false := by
  have h := C7_push_audio (fun _ => some [1]) (AudioManager.mk ["s1"] [("s1", [])])
    "s1" "AQ==" (by decide)
  exact ⟨(h.2.2.1 [] [1] (by decide) rfl (by decide)).1, h.2.2.2.1.1⟩

/-- The trigger predicate, characterised in the claim's terms: it holds
exactly when the final count is at least 5 and divisible by the cadence
5 / 10 / 15 chosen by the duration bands d ≤ 30, 30 < d ≤ 60 and d > 60. -/
theorem should_update_summary_iff (s : SessionData) (now c : Nat) :
    (should_update_summary s now c = true ↔
      (5 ≤ c ∧ c %
        (if get_meeting_duration_minutes s now ≤ 30 then 5
         else if 30 < get_meeting_duration_minutes s now ∧
             get_meeting_duration_minutes s now ≤ 60 then 10
         else 15) = 0)) := by
  unfold should_update_summary
  by_cases h5 : c < 5
  · simp only [if_pos h5, Bool.false_eq_true, false_iff, not_and]
    intro hc _
    omega
  · rw [if_neg h5]
    show (c % (if get_meeting_duration_minutes s now ≤ 30 then 5
        else if get_meeting_duration_minutes s now ≤ 60 then 10 else 15) == 0) = true ↔ _
    set d := get_meeting_duration_minutes s now with hd
    have hfreq : (if d ≤ 30 then 5 else if d ≤ 60 then 10 else 15)
        = (if d ≤ 30 then 5 else if 30 < d ∧ d ≤ 60 then 10 else 15) := by
      by_cases h30 : d ≤ 30
      · rw [if_pos h30, if_pos h30]
      · by_cases h60 : d ≤ 60
        · rw [if_neg h30, if_neg h30, if_pos h60, if_pos ⟨by omega, h60⟩]
        · rw [if_neg h30, if_neg h30, if_neg h60, if_neg (by omega)]
    rw [hfreq]
    constructor
    · intro hb
      exact ⟨by omega, by simpa using hb⟩
    · intro hb
      simpa using hb.2

/-- Claim C1, counterexample: in a session holding a final
provider-callback entry, the fifth final line (duration 0, cadence 5,
5 % 5 = 0 — the claimed firing condition holds) does NOT fire the
trigger: the word-count recompute at socket_service.py line 150 hits the
provider entry's missing `transcript` key, the KeyError is caught at line
189, and the handler aborts after the append without ever evaluating the
trigger. -/
theorem C1_counterexample :
    (Socket.handle_transcript_line 0 mixedPathSession "d" "u" 0 true).2 = false ∧
    ((Socket.handle_transcript_line 0 mixedPathSession "d" "u" 0
        true).1.transcripts.filter (fun t => t.is_final)).length = 5 ∧
    get_meeting_duration_minutes mixedPathSession 0 ≤ 30 ∧
    (5 : Nat) % 5 = 0 ∧ 5 ≤ 5 := by
  decide

/-- Claim C1 (amended): appending a (nonempty) transcript line through the
WebSocket handler evaluates the summary trigger only when the line is
final — an interim line never triggers.  Provided every stored final entry
carries the `transcript` key (true in particular whenever the provider
callback contributed no final line), the trigger fires exactly when the
session's final-line count c after the append satisfies c ≥ 5 and
c % f = 0, where f = 5 when the elapsed duration d in minutes since
`started_at` (as computed by `_get_meeting_duration_minutes`) is at most
30, f = 10 when 30 < d ≤ 60, and f = 15 when d > 60; when some stored
final entry lacks the key, the recompute raises KeyError and the handler
aborts after the append without evaluating the trigger. -/
theorem C1_summary_trigger (now : Nat) (s : SessionData) (text speaker : String)
    (conf : Rat) (is_final : Bool) (h : ¬ text = "")
    (hkeys : ∀ t ∈ s.transcripts, t.is_final = true → t.transcript.isSome = true) :
    ((Socket.handle_transcript_line now s text speaker conf is_final).2 = true ↔
      (is_final = true ∧
        5 ≤ ((Socket.handle_transcript_line now s text speaker conf
            is_final).1.transcripts.filter (fun t => t.is_final)).length ∧
        ((Socket.handle_transcript_line now s text speaker conf
            is_final).1.transcripts.filter (fun t => t.is_final)).length %
          (if get_meeting_duration_minutes s now ≤ 30 then 5
           else if 30 < get_meeting_duration_minutes s now ∧
               get_meeting_duration_minutes s now ≤ 60 then 10
           else 15) = 0)) := by
  unfold Socket.handle_transcript_line
  rw [if_neg h]
  cases is_final with
  | false => simp
  | true =>
    rw [if_pos rfl]
    have hkeys2 : ∀ t ∈ s.transcripts ++
        [({ transcript := some text, text := none, speaker := some speaker,
            confidence := conf, is_final := true, timestamp := now,
            sequence := some s.transcripts.length } : TranscriptEntry)],
        t.is_final = true → t.transcript.isSome = true := by
      intro t ht hf
      rcases List.mem_append.mp ht with h1 | h2
      · exact hkeys t h1 hf
      · rw [List.mem_singleton.mp h2]
        rfl
    rcases hsum : finalWordSum? (s.transcripts ++
        [({ transcript := some text, text := none, speaker := some speaker,
            confidence := conf, is_final := true, timestamp := now,
            sequence := some s.transcripts.length } : TranscriptEntry)]) with _ | wc
    · have hok := finalWordSum?_eq_some _ hkeys2
      rw [hsum] at hok
      exact absurd hok (by simp)
    · simp only [eq_self_iff_true, true_and]
      rw [should_update_summary_iff]
      rfl

/-- Claim C1, witness: one final line in a fresh session yields final
count 1 < 5, so no trigger. -/
theorem C1_summary_trigger_witness :
    (Socket.handle_transcript_line 0 (create_session 0) "hi" "u" 0 true).2 = false := by
  have h := C1_summary_trigger 0 (create_session 0) "hi" "u" 0 true (by decide) (by decide)
  rw [Bool.eq_false_iff]
  intro htrue
  have hc := h.mp htrue
  revert hc
  decide

/-- Claim C2, counterexample, two violations: (1) an interim WebSocket
line "hello world" followed by a final HTTP transcript line "foo" leaves
`word_count` at 3 (the endpoint sums over ALL lines, interim included)
while the final-only sum is 1; (2) a final provider-callback line "hello"
followed by a final WebSocket line "a b" leaves `word_count` stale at 1
(the recompute raises KeyError on the provider entry's missing
`transcript` key and the handler aborts after the append) while the
final-only sum is 3. -/
theorem C2_counterexample :
    ((Sessions.add_transcript 1
        (Socket.handle_transcript_line 0 (create_session 0) "hello world" "u" 0 false).1
        "foo" "u" 0).word_count = 3 ∧
      finalWordSum (Sessions.add_transcript 1
        (Socket.handle_transcript_line 0 (create_session 0) "hello world" "u" 0 false).1
        "foo" "u" 0).transcripts = 1) ∧
    ((Socket.handle_transcript_line 1
        (Sessions.add_transcript_to_session 0 (create_session 0) "hello" 0 true)
        "a b" "u" 0 true).1.word_count = 1 ∧
      finalWordSum (Socket.handle_transcript_line 1
        (Sessions.add_transcript_to_session 0 (create_session 0) "hello" 0 true)
        "a b" "u" 0 true).1.transcripts = 3) := by
  decide

/-- Claim C2 (amended): the invariant `word_count` = sum of word counts
over final lines is preserved by the provider callback unconditionally
(it adds the new final line's words incrementally), and by the WebSocket
handler provided every stored final entry carries the `transcript` key —
when a final provider-callback entry is present, the final-line recompute
raises KeyError and leaves `word_count` stale; the HTTP transcript
endpoint, when all stored entries carry the key, sets `word_count` to the
sum over ALL stored lines including interim ones (and aborts with a stale
`word_count` when any provider entry is present), so the invariant holds
there only while no interim line and no provider entry is stored. -/
theorem C2_word_count (now : Nat) (s : SessionData) (text speaker : String)
    (conf : Rat) (is_final : Bool)
    (h : s.word_count = finalWordSum s.transcripts) :
    ((∀ t ∈ s.transcripts, t.is_final = true → t.transcript.isSome = true) →
      (Socket.handle_transcript_line now s text speaker conf is_final).1.word_count
        = finalWordSum
            (Socket.handle_transcript_line now s text speaker conf is_final).1.transcripts) ∧
    ((Sessions.add_transcript_to_session now s text conf is_final).word_count
        = finalWordSum (Sessions.add_transcript_to_session now s text conf is_final).transcripts) ∧
    ((∀ t ∈ s.transcripts, t.transcript.isSome = true) →
      (Sessions.add_transcript now s text speaker conf).word_count
        = allWordSum (Sessions.add_transcript now s text speaker conf).transcripts) := by
  refine ⟨?_, ?_, ?_⟩
  · intro hkeys
    unfold Socket.handle_transcript_line
    by_cases ht : text = ""
    · rw [if_pos ht]
      exact h
    · rw [if_neg ht]
      cases is_final with
      | false =>
        show s.word_count = finalWordSum (s.transcripts ++ [_])
        rw [finalWordSum_append]
        simpa using h
      | true =>
        rw [if_pos rfl]
        have hkeys2 : ∀ t ∈ s.transcripts ++
            [({ transcript := some text, text := none, speaker := some speaker,
                confidence := conf, is_final := true, timestamp := now,
                sequence := some s.transcripts.length } : TranscriptEntry)],
            t.is_final = true → t.transcript.isSome = true := by
          intro t ht2 hf
          rcases List.mem_append.mp ht2 with h1 | h2
          · exact hkeys t h1 hf
          · rw [List.mem_singleton.mp h2]
            rfl
        rw [finalWordSum?_eq_some _ hkeys2]
  · unfold Sessions.add_transcript_to_session
    cases is_final with
    | false =>
      show s.word_count = finalWordSum (s.transcripts ++ [_])
      rw [finalWordSum_append]
      simpa using h
    | true =>
      show s.word_count + pyWordCount text = finalWordSum (s.transcripts ++ [_])
      rw [finalWordSum_append, h]
      rfl
  · intro hkeys
    simp only [Sessions.add_transcript]
    have hkeys2 : ∀ t ∈ s.transcripts ++
        [({ transcript := some text, text := none, speaker := some speaker,
            confidence := conf, is_final := true, timestamp := now,
            sequence := some s.transcripts.length } : TranscriptEntry)],
        t.transcript.isSome = true := by
      intro t ht2
      rcases List.mem_append.mp ht2 with h1 | h2
      · exact hkeys t h1
      · rw [List.mem_singleton.mp h2]
        rfl
    rw [allWordSum?_eq_some _ hkeys2]

/-- Claim C2, witness: the preservation statement applied to a fresh
session and one final line on each path. -/
theorem C2_word_count_witness :
    (Socket.handle_transcript_line 0 (create_session 0) "a b" "u" 0 true).1.word_count = 2 ∧
    (Sessions.add_transcript_to_session 0 (create_session 0) "a b c" 0 true).word_count = 3 := by
  have h := C2_word_count 0 (create_session 0) "a b" "u" 0 true rfl
  have h2 := C2_word_count 0 (create_session 0) "a b c" "u" 0 true rfl
  exact ⟨(h.1 (by decide)).trans (by decide), h2.2.1.trans (by decide)⟩

/-- Claim C3, counterexample: a line appended through the provider
callback `add_transcript_to_session` carries NO sequence number at all
(the entry dict has no `sequence` key), so it is not true that every
appended line is assigned a sequence number at the moment of appending. -/
theorem C3_counterexample :
    ((Sessions.add_transcript_to_session 0 (create_session 0) "hi" 0 true).transcripts.map
        (fun t => t.sequence)) = [none] ∧
    ((Sessions.add_transcript_to_session 0 (create_session 0) "hi" 0 true).transcripts.all
        (fun t => t.sequence.isSome)) = false := by
  constructor <;> rfl

/-- Appending one entry whose sequence is the current length extends the
"sequences are exactly 0,1,2,..." invariant. -/
theorem seq_map_append (ts : List TranscriptEntry) (e : TranscriptEntry)
    (he : e.sequence = some ts.length)
    (h : ts.map (fun t => t.sequence) = (List.range ts.length).map some) :
    (ts ++ [e]).map (fun t => t.sequence)
      = (List.range (ts ++ [e]).length).map some := by
  simp [List.range_succ, h, he]

/-- One sequenced-path ingestion step preserves "sequence numbers are
exactly 0,1,2,... in order". -/
theorem seq_step (s : SessionData) (op : IngestOp)
    (hop : op.viaSequencedPath = true)
    (h : s.transcripts.map (fun t => t.sequence)
        = (List.range s.transcripts.length).map some) :
    (applyIngest s op).transcripts.map (fun t => t.sequence)
      = (List.range (applyIngest s op).transcripts.length).map some := by
  cases op with
  | ws n t sp c f =>
    show ((Socket.handle_transcript_line n s t sp c f).1.transcripts.map
        (fun x => x.sequence))
      = (List.range
          ((Socket.handle_transcript_line n s t sp c f).1.transcripts.length)).map some
    by_cases ht : t = ""
    · unfold Socket.handle_transcript_line
      rw [if_pos ht]
      exact h
    · rw [handle_transcript_line_transcripts n s t sp c f ht]
      exact seq_map_append s.transcripts _ rfl h
  | http n t sp c =>
    show ((Sessions.add_transcript n s t sp c).transcripts.map (fun x => x.sequence))
      = (List.range ((Sessions.add_transcript n s t sp c).transcripts.length)).map some
    rw [add_transcript_transcripts n s t sp c]
    exact seq_map_append s.transcripts _ rfl h
  | provider n t c f =>
    exact absurd hop (by simp [IngestOp.viaSequencedPath])

/-- Folding sequenced-path operations preserves the sequence invariant. -/
theorem seq_foldl (ops : List IngestOp) :
    ∀ s : SessionData, (∀ op ∈ ops, op.viaSequencedPath = true) →
      s.transcripts.map (fun t => t.sequence)
        = (List.range s.transcripts.length).map some →
      ((ops.foldl applyIngest s).transcripts.map (fun t => t.sequence)
        = (List.range (ops.foldl applyIngest s).transcripts.length).map some) := by
  induction ops with
  | nil => exact fun s _ hs => hs
  | cons op rest ih =>
    intro s hall hs
    simp only [List.foldl_cons]
    exact ih _ (fun o ho => hall o (List.mem_cons_of_mem _ ho))
      (seq_step s op (hall op (List.mem_cons_self _ _)) hs)

/-- Claim C3 (amended): starting from a fresh session, every line appended
through the WebSocket handler or the HTTP endpoint is assigned
`sequence = current log length` at the moment of appending, so the
sequence numbers of a session fed only by those two paths are exactly
0, 1, 2, ... — strictly increasing and gap-free from 0.  (The provider
callback assigns no sequence; see the counterexample.) -/
theorem C3_sequence_gapfree (t0 : Nat) (ops : List IngestOp)
    (h : ∀ op ∈ ops, op.viaSequencedPath = true) :
    ((ops.foldl applyIngest (create_session t0)).transcripts.map (fun t => t.sequence))
      = (List.range
          (ops.foldl applyIngest (create_session t0)).transcripts.length).map some :=
  seq_foldl ops (create_session t0) h rfl

/-- Claim C3, witness: a WebSocket interim line, a WebSocket final line and
an HTTP line get sequences 0, 1, 2. -/
theorem C3_sequence_gapfree_witness :
    (([IngestOp.ws 0 "a" "u" 0 false, IngestOp.ws 1 "b" "u" 0 true,
        IngestOp.http 2 "c" "u" 0].foldl applyIngest
        (create_session 0)).transcripts.map (fun t => t.sequence))
      = [some 0, some 1, some 2] := by
  have h := C3_sequence_gapfree 0
    [IngestOp.ws 0 "a" "u" 0 false, IngestOp.ws 1 "b" "u" 0 true, IngestOp.http 2 "c" "u" 0]
    (by decide)
  exact h.trans (by rfl)

/-- Claim C5 (code_bug evidence): for a session holding the final line
"hello world" and a previous summary, the messages the call site actually
builds contain no assistant message — `previous_summary` is left at its
default `None` because the existing summary was passed positionally into
the `new_transcripts` slot — and the user message lists the summary dict's
keys instead of any transcript text (the transcript entries sit in the
never-read `conversation_history` parameter). -/
theorem C5_call_site_messages_eval :
    ((SalesforceModelsService.call_site_messages
        [{ transcript := some "hello world", text := none, speaker := some "u",
           confidence := 0, is_final := true, timestamp := 0, sequence := some 0 }]
        { emptyMeetingSummary with summary := "prev" }).map (fun m => m.role)
      = ["system", "user"]) ∧
    ((SalesforceModelsService.call_site_messages
        [{ transcript := some "hello world", text := none, speaker := some "u",
           confidence := 0, is_final := true, timestamp := 0, sequence := some 0 }]
        { emptyMeetingSummary with summary := "prev" }).getLast?.map (fun m => m.content)
      = some ("Please create a meeting summary from these transcript lines:\n\n- summary\n- actionItems\n- questions\n- nextSteps\n- lastUpdated\n- finalTranscriptCount")) := by
  constructor <;> decide

/-- Claim C6, counterexample: when the summarization result is a total
failure (`None` after the retries), the background task emits NO event at
all — the emitted-event list is empty, so no summary-error event reaches
the session's subscribers — contradicting the claimed `summary_error`
emission.  The stored summary is indeed left unchanged. -/
theorem C6_counterexample :
    (Socket.generate_summary 50
        { create_session 0 with
            oauth_token := some "tok",
            transcripts := [⟨some "hello", none, some "u", 0, true, 0, some 0⟩] }
        none).2 = [] ∧
    SalesforceModelsService.generate_meeting_summary_result (fun _ => none) = none := by
  constructor <;> rfl

/-- Exhausting the retry fuel over always-failing attempts yields `none`. -/
theorem retryLoop_none (attempt : Nat → Option MeetingSummary) :
    ∀ fuel i, (∀ j, i ≤ j → j < i + fuel → attempt j = none) →
      SalesforceModelsService.retryLoop attempt fuel i = none := by
  intro fuel
  induction fuel with
  | zero => intro i _; rfl
  | succ n ih =>
    intro i hj
    show SalesforceModelsService.retryLoop attempt (n + 1) i = none
    unfold SalesforceModelsService.retryLoop
    rw [hj i le_rfl (by omega)]
    exact ih (i + 1) (fun j h1 h2 => hj j (by omega) (by omega))

/-- Claim C6 (amended): a failed summarization call is retried up to 3
attempts (with a 10-second sleep between attempts, not modelled) entirely
inside the background task, returning `None` when every attempt fails; the
task then leaves the stored MeetingSummary unchanged, but emits no event
whatsoever — the failure is only logged, no summary-error event reaches
subscribers; and the task changes nothing else about the session, so
ingestion is neither blocked nor retried by it. -/
theorem C6_failure_handling (attempt : Nat → Option MeetingSummary)
    (hfail : ∀ i, i < SalesforceModelsService.max_retries → attempt i = none)
    (now : Nat) (s : SessionData) :
    SalesforceModelsService.generate_meeting_summary_result attempt = none ∧
    (Socket.generate_summary now s none).1 = s ∧
    (Socket.generate_summary now s none).2 = [] := by
  refine ⟨?_, ?_, ?_⟩
  · exact retryLoop_none attempt SalesforceModelsService.max_retries 0
      (fun j _ h2 => hfail j (by simpa using h2))
  · unfold Socket.generate_summary
    split
    · rfl
    · cases htok : s.oauth_token <;> rfl
  · unfold Socket.generate_summary
    split
    · rfl
    · cases htok : s.oauth_token <;> rfl

/-- Claim C6, witness: all three conclusions at a concrete
always-failing attempt function and a fresh session. -/
theorem C6_failure_handling_witness :
    SalesforceModelsService.generate_meeting_summary_result (fun _ => none) = none ∧
    (Socket.generate_summary 5 (create_session 0) none).1 = create_session 0 := by
  have h := C6_failure_handling (fun _ => none) (fun i _ => rfl) 5 (create_session 0)
  exact ⟨h.1, h.2.1⟩

/-- Claim C8, counterexample: ending a started session through the HTTP
endpoint stores the status string "ended" — which is not among the
specified enum values — and stores no duration. -/
theorem C8_counterexample :
    (Sessions.end_session 60 (Sessions.start_session 10 (create_session 0))).status
      = "ended" ∧
    "ended" ∉ (["created", "active", "completed", "error"] : List String) ∧
    (Sessions.end_session 60 (Sessions.start_session 10 (create_session 0))).duration
      = none := by
  refine ⟨rfl, by decide, rfl⟩

/-- The WebSocket end handler always stores status "completed". -/
theorem handle_end_session_status (now : Nat) (s : SessionData) :
    (Socket.handle_end_session now s).status = "completed" := by
  unfold Socket.handle_end_session
  cases s.started_at <;> rfl

/-- Claim C8 (amended): the WebSocket end handler sets the status to
"completed" and stores the final duration `now - started_at` whenever the
session was started; the HTTP end endpoint instead sets the status to
"ended" and leaves the stored duration untouched; and across any sequence
of create/start/end/ingest operations the stored status is always one of
"created", "active", "completed", "ended" — the set actually reachable in
the code, which differs from the specified enum by "ended" in place of a
uniform "completed" (and with no "error" writer in these paths). -/
theorem C8_end_paths :
    (∀ (now st : Nat) (s : SessionData), s.started_at = some st →
      (Socket.handle_end_session now s).status = "completed" ∧
      (Socket.handle_end_session now s).duration = some (now - st)) ∧
    (∀ (now : Nat) (s : SessionData),
      (Sessions.end_session now s).status = "ended" ∧
      (Sessions.end_session now s).duration = s.duration) ∧
    (∀ (t0 : Nat) (ops : List SessionOp),
      (ops.foldl applySessionOp (create_session t0)).status ∈
        (["created", "active", "completed", "ended"] : List String)) := by
  refine ⟨?_, ?_, ?_⟩
  · intro now st s hst
    unfold Socket.handle_end_session
    rw [hst]
    exact ⟨rfl, rfl⟩
  · intro now s
    exact ⟨rfl, rfl⟩
  · intro t0 ops
    have H : ∀ s : SessionData,
        s.status ∈ (["created", "active", "completed", "ended"] : List String) →
        (ops.foldl applySessionOp s).status ∈
          (["created", "active", "completed", "ended"] : List String) := by
      induction ops with
      | nil => exact fun s hs => hs
      | cons op rest ih =>
        intro s hs
        simp only [List.foldl_cons]
        apply ih
        cases op with
        | ingest o =>
          show (applyIngest s o).status ∈ _
          rw [status_applyIngest]
          exact hs
        | start n => show "active" ∈ _; decide
        | ws_end n =>
          show (Socket.handle_end_session n s).status ∈ _
          rw [handle_end_session_status]
          decide
        | http_end n => show "ended" ∈ _; decide
    exact H _ (List.Mem.head _)

/-- Claim C8, witness: the WebSocket end handler on a session started at
10 and ended at 60 stores status "completed" and duration 50; the HTTP
endpoint on the same session stores status "ended". -/
theorem C8_end_paths_witness :
    (Socket.handle_end_session 60 (Sessions.start_session 10 (create_session 0))).status
      = "completed" ∧
    (Socket.handle_end_session 60 (Sessions.start_session 10 (create_session 0))).duration
      = some 50 ∧
    (Sessions.end_session 60 (Sessions.start_session 10 (create_session 0))).status
      = "ended" := by
  have h := C8_end_paths
  have h1 := h.1 60 10 (Sessions.start_session 10 (create_session 0)) rfl
  have h2 := h.2.1 60 (Sessions.start_session 10 (create_session 0))
  exact ⟨h1.1, h1.2.trans (by decide), h2.1⟩

end Astro
